import Mathlib

/-!
Shallow embedding of `src/detect_image.py` (an object-detection example
script) and proofs of the specification claims about it.

Machine integers of the script are modelled as `Nat`/`Int`; detection
scores (Python floats compared against a threshold) are modelled as `ℚ`,
since the script only moves them around and never does float arithmetic
on them.  Fallible Python statements are modelled with `Except PyErr`.
-/

set_option autoImplicit false

namespace DetectImage

/-- The uncaught Python exceptions the script can raise. -/
inductive PyErr where
  | indexError
  | attributeError
  | valueError
  | fileNotFoundError
  | nameError
deriving DecidableEq

/-- Decidable equality for `Except`, so runs can be compared on concrete
inputs. -/
instance instDecEqExcept {ε α : Type} [DecidableEq ε] [DecidableEq α] :
    DecidableEq (Except ε α) := fun a b =>
  match a, b with
  | .ok x, .ok y =>
    if h : x = y then .isTrue (by rw [h])
    else .isFalse (fun c => h (Except.ok.inj c))
  | .error x, .error y =>
    if h : x = y then .isTrue (by rw [h])
    else .isFalse (fun c => h (Except.error.inj c))
  | .ok _, .error _ => .isFalse (fun c => Except.noConfusion c)
  | .error _, .ok _ => .isFalse (fun c => Except.noConfusion c)

/-! ### Python string primitives used by the script -/

/-- ASCII decimal digit test (`'0'` to `'9'`).  The script's label files are
ASCII, so we do not model the non-ASCII digits Python's `str.isdigit`
also accepts. -/
def isAsciiDigit (c : Char) : Bool :=
  '0' ≤ c && c ≤ '9'

/-- Python `str.isdigit()`: nonempty and all characters are digits. -/
def pyIsdigit (s : String) : Bool :=
  !s.data.isEmpty && s.data.all isAsciiDigit

/-- The characters Python `str.strip()` removes from both ends. -/
def isPySpace (c : Char) : Bool :=
  c = ' ' || c = '\t' || c = '\n' || c = '\r' || c = '\x0b' || c = '\x0c'

/-- Python `str.strip()`. -/
def pyStrip (s : String) : String :=
  ⟨((s.data.dropWhile isPySpace).reverse.dropWhile isPySpace).reverse⟩

/-- Helper for `line.split(' ', maxsplit=1)`: splits a character list at the
first occurrence of `c`, returning the part before it and, when `c`
occurs, the part after it. -/
def split1Aux (c : Char) : List Char → List Char × Option (List Char)
  | [] => ([], none)
  | x :: xs =>
    if x = c then ([], some xs)
    else
      let p := split1Aux c xs
      (x :: p.1, p.2)

/-- Python `line.split(' ', maxsplit=1)`. -/
def pySplit1 (s : String) : List String :=
  match split1Aux ' ' s.data with
  | (p, none) => [⟨p⟩]
  | (p, some r) => [⟨p⟩, ⟨r⟩]

/-- The value of a list of decimal digit characters. -/
def digitsVal (l : List Char) : Nat :=
  l.foldl (fun a c => 10 * a + (c.toNat - 48)) 0

/-- Python `int(s)` restricted to the inputs the script feeds it: optional
surrounding whitespace around a plain run of decimal digits.  Returns
`none` where Python raises `ValueError`.  (Signs, underscores and
non-ASCII digits, which the script never produces, are not modelled.) -/
def pyInt (s : String) : Option Nat :=
  let t := pyStrip s
  if pyIsdigit t then some (digitsVal t.data) else none

/-! ### The label dictionary -/

/-- A Python `dict` with `int` keys and `str` values, modelled as an
association list in insertion order (Python dicts preserve insertion
order; assigning to an existing key overwrites in place). -/
def natDictSet (d : List (Nat × String)) (k : Nat) (v : String) :
    List (Nat × String) :=
  if d.any (fun p => p.1 == k) then
    d.map (fun p => if p.1 == k then (k, v) else p)
  else
    d ++ [(k, v)]

/-- Embedding of `load_labels` (src/detect_image.py lines 36-53).  The input
is the list of lines as Python `f.readlines()` returns them (each line
keeps its trailing newline, except possibly the last).

```python
lines = f.readlines()
if not lines:
  return {}
if lines[0].split(' ', maxsplit=1)[0].isdigit():
  pairs = [line.split(' ', maxsplit=1) for line in lines]
  return {int(index): label.strip() for index, label in pairs}
else:
  return {index: line.strip() for index, line in enumerate(lines)}
```

A line without a space in the digit branch fails the two-element
unpacking, and a non-numeric first token fails `int`; both raise
`ValueError`. -/
def labelPairsStep (d : List (Nat × String)) (line : String) :
    Except PyErr (List (Nat × String)) :=
  match pySplit1 line with
  | [index, label] =>
    match pyInt index with
    | some k => .ok (natDictSet d k (pyStrip label))
    | none => .error PyErr.valueError
  | _ => .error PyErr.valueError

/-- Embedding of `load_labels` proper; see `labelPairsStep` for the body of
the dict comprehension of the digit branch. -/
def loadLabels (lines : List String) : Except PyErr (List (Nat × String)) :=
  match lines with
  | [] => .ok []
  | l0 :: _ =>
    if pyIsdigit ((pySplit1 l0).headD "") then
      lines.foldlM labelPairsStep []
    else
      .ok (lines.enum.map (fun p => (p.1, pyStrip p.2)))

/-! ### make_interpreter -/

/-- The inference handle returned by `tflite.Interpreter(model_path=...)`,
abstracted to the only datum the script passes it: the model path. -/
structure Interpreter where
  modelPath : String
deriving DecidableEq

/-- Python `s.split(c)` (split on every occurrence) over character lists. -/
def splitAllAux (c : Char) : List Char → List (List Char)
  | [] => [[]]
  | x :: xs =>
    if x = c then [] :: splitAllAux c xs
    else
      match splitAllAux c xs with
      | [] => [[x]]
      | y :: ys => (x :: y) :: ys

/-- Embedding of `make_interpreter` (src/detect_image.py lines 56-60):

```python
model_file, *device = model_file.split('@')
return tflite.Interpreter(model_path=model_file)
```

The `device` remainder of the split is bound and then never used. -/
def makeInterpreter (model_file : String) : Interpreter :=
  { modelPath := ⟨(splitAllAux '@' model_file.data).headD []⟩ }

/-! ### Detections and the accumulator lists -/

/-- The bounding box of a detection, as produced by the external `detect`
helper: a namedtuple with fields (xmin, ymin, xmax, ymax), in that order.
Pixel coordinates are modelled as `Int`. -/
structure BBox where
  xmin : Int
  ymin : Int
  xmax : Int
  ymax : Int
deriving DecidableEq

/-- Positional indexing into the `BBox` namedtuple (`obj.bbox[k]`). -/
def bboxGet (b : BBox) : Nat → Int
  | 0 => b.xmin
  | 1 => b.ymin
  | 2 => b.xmax
  | _ => b.ymax

/-- One detection from the external postprocessing helper: class id,
confidence score, bounding box. -/
structure DetObject where
  id : Nat
  score : ℚ
  bbox : BBox
deriving DecidableEq

/-- The seven parallel accumulator lists of `main`
(src/detect_image.py lines 96-102). -/
structure Accum where
  img_n : List String
  img_id : List Nat
  img_x : List Int
  img_y : List Int
  img_w : List Int
  img_h : List Int
  img_score : List ℚ
deriving DecidableEq

/-- The empty accumulator state at the start of `main`. -/
def initAccum : Accum :=
  { img_n := [], img_id := [], img_x := [], img_y := [], img_w := [],
    img_h := [], img_score := [] }

/-- The per-detection body of the results loop
(src/detect_image.py lines 125-140):

```python
w = obj.bbox[2]-obj.bbox[0]
h = obj.bbox[3]-obj.bbox[1]
img_n.append(img); img_id.append(obj.id)
img_x.append(obj.bbox[0]); img_y.append(obj.bbox[1])
img_w.append(w); img_h.append(h); img_score.append(obj.score)
``` -/
def processObj (acc : Accum) (img : String) (o : DetObject) : Accum :=
  let w := bboxGet o.bbox 2 - bboxGet o.bbox 0
  let h := bboxGet o.bbox 3 - bboxGet o.bbox 1
  { img_n := acc.img_n ++ [img]
    img_id := acc.img_id ++ [o.id]
    img_x := acc.img_x ++ [bboxGet o.bbox 0]
    img_y := acc.img_y ++ [bboxGet o.bbox 1]
    img_w := acc.img_w ++ [w]
    img_h := acc.img_h ++ [h]
    img_score := acc.img_score ++ [o.score] }

/-- The RESULTS section for one image (src/detect_image.py lines 121-141):
prints the banner, prints `No objects detected` when the decoded list is
empty, and appends one entry per detection to each accumulator list.
The per-detection field prints and the loop counter print carry no data
the claims depend on and are elided from the output list. -/
def processImage (acc : Accum) (img : String) (objs : List DetObject) :
    Accum × List String :=
  let msgs :=
    if objs.isEmpty then ["-------RESULTS--------", "No objects detected"]
    else ["-------RESULTS--------"]
  (objs.foldl (fun a o => processObj a img o) acc, msgs)

/-! ### The hardcoded glob -/

/-- Whether `ys` begins with `xs`. -/
def startsWithChars : List Char → List Char → Bool
  | [], _ => true
  | _ :: _, [] => false
  | x :: xs, y :: ys => x == y && startsWithChars xs ys

/-- Whether the path matches the hardcoded pattern `test_images/*.jpg`
(src/detect_image.py line 94): the fixed directory, then a basename with
no further separator, not starting with a dot (glob skips hidden files),
ending in `.jpg`. -/
def matchesImgGlob (p : String) : Bool :=
  let l := p.data
  let pre := "test_images/".data
  let suf := ".jpg".data
  startsWithChars pre l &&
  let base := l.drop pre.length
  decide (suf.length ≤ base.length) &&
  base.drop (base.length - suf.length) == suf &&
  (base.take (base.length - suf.length)).all (fun c => c != '/') &&
  base.headD ' ' != '.'

/-- `glob.glob('test_images/*.jpg')` over a filesystem modelled as the list
of its file paths, kept in listing order. -/
def pyGlob (fs : List String) : List String :=
  fs.filter matchesImgGlob

/-! ### The per-image loop -/

/-- The mutable state threaded through the `for img in img_name` loop:
the accumulator lists, the observable side effects (lines printed, images
opened, annotated copies saved), and the value of the Python local `objs`,
which leaks from one iteration to the next and is unassigned before the
first (`none`). -/
structure LoopState where
  acc : Accum
  printed : List String
  opened : List String
  saved : List String
  prevObjs : Option (List DetObject)
deriving DecidableEq

/-- The loop state before the first iteration. -/
def initLoopState : LoopState :=
  { acc := initAccum, printed := [], opened := [], saved := [],
    prevObjs := none }

/-- One iteration of the image loop (src/detect_image.py lines 106-148).
`orc` stands for the external inference runtime plus `detect.get_output`:
given the score threshold and the image, it yields the decoded detections
above the threshold.  `for _ in range(args.count)` runs the inference
`count` times and each pass overwrites `objs` with the same decoded list;
when `count <= 0` the inner loop body never runs, so line 122 reads the
`objs` of the previous iteration, or raises `NameError` on the first
image.  Timing prints (wall-clock) are elided; `args.output` triggers
drawing and saving an annotated copy, recorded by its path. -/
def resolveObjs (threshold : ℚ) (count : Int)
    (orc : ℚ → String → List DetObject) (prev : Option (List DetObject))
    (img : String) : Except PyErr (List DetObject) :=
  if 1 ≤ count then .ok (orc threshold img)
  else
    match prev with
    | some o => .ok o
    | none => .error PyErr.nameError

/-- The opening part of an iteration: `Image.open(img)` plus the inference
banner print (lines 107-113). -/
def openStep (s : LoopState) (img : String) : LoopState :=
  { s with opened := s.opened ++ [img],
           printed := s.printed ++ ["----INFERENCE TIME----"] }

/-- The part of an iteration after `objs` is known: the RESULTS section
(prints plus accumulator appends) and the optional annotated save
(lines 121-148). -/
def loopStepOk (output : Option String) (s1 : LoopState) (img : String)
    (objs : List DetObject) : LoopState :=
  let r := processImage s1.acc img objs
  let s2 : LoopState :=
    { s1 with acc := r.1, printed := s1.printed ++ r.2,
              prevObjs := some objs }
  match output with
  | some p => { s2 with saved := s2.saved ++ [p] }
  | none => s2

/-- See `resolveObjs` for the value of `objs` at line 122; the remainder of
the iteration threads it through the RESULTS section and the optional
annotated save. -/
def loopBody (threshold : ℚ) (output : Option String) (count : Int)
    (orc : ℚ → String → List DetObject) (s : LoopState) (img : String) :
    Except (LoopState × PyErr) LoopState :=
  match resolveObjs threshold count orc (openStep s img).prevObjs img with
  | .error e => .error (openStep s img, e)
  | .ok objs => .ok (loopStepOk output (openStep s img) img objs)

/-- The whole `for img in img_name` loop. -/
def runLoop (threshold : ℚ) (output : Option String) (count : Int)
    (orc : ℚ → String → List DetObject) (imgs : List String) :
    Except (LoopState × PyErr) LoopState :=
  imgs.foldlM (loopBody threshold output count orc) initLoopState

/-! ### The final table object -/

/-- A Python value stored in the `img_dict` literal: a single filename
string or one of the full accumulator lists. -/
inductive PyVal where
  | vstr : String → PyVal
  | vnats : List Nat → PyVal
  | vints : List Int → PyVal
  | vrats : List ℚ → PyVal
deriving DecidableEq

/-- A Python `dict` with string keys in insertion order. -/
abbrev PyDict := List (String × PyVal)

/-- `d[k] = v` on a Python dict: overwrite in place if the key exists,
otherwise append. -/
def dictSet (d : PyDict) (k : String) (v : PyVal) : PyDict :=
  if d.any (fun p => p.1 == k) then
    d.map (fun p => if p.1 == k then (k, v) else p)
  else
    d ++ [(k, v)]

/-- `d.update(other)`: set every key of `other` in `d`, in order. -/
def dictUpdate (d other : PyDict) : PyDict :=
  other.foldl (fun a p => dictSet a p.1 p.2) d

/-- The `img_dict` literal of src/detect_image.py lines 150-158: one image
filename paired with the entire accumulated lists for every other
column. -/
def imgDictAt (st : Accum) (name : String) : PyDict :=
  [("image_filename", PyVal.vstr name),
   ("label_id", PyVal.vnats st.img_id),
   ("x", PyVal.vints st.img_x),
   ("y", PyVal.vints st.img_y),
   ("w", PyVal.vints st.img_w),
   ("h", PyVal.vints st.img_h),
   ("confidence", PyVal.vrats st.img_score)]

/-- The body of `for i in range(len(img_x))` (src/detect_image.py lines
149-159), iterated over an explicit index list: each pass reads
`img_n[i]` (raising `IndexError` when out of range), builds `img_dict`
and merges it into `img_csv` with `update`. -/
def csvLoop (st : Accum) : PyDict → List Nat → Except PyErr PyDict
  | d, [] => .ok d
  | d, i :: rest =>
    match st.img_n.get? i with
    | none => .error PyErr.indexError
    | some nm => csvLoop st (dictUpdate d (imgDictAt st nm)) rest

/-- The whole rebuild loop, starting from the empty `img_csv = {}`. -/
def buildCsv (st : Accum) : Except PyErr PyDict :=
  csvLoop st [] (List.range st.img_x.length)

/-- The attribute names of a plain Python `dict` (its public methods).
Looking up any other attribute raises `AttributeError`. -/
def pyDictAttrs : List String :=
  ["clear", "copy", "fromkeys", "get", "items", "keys", "pop", "popitem",
   "setdefault", "update", "values"]

/-- Attribute lookup on a plain dict, as performed by `img_csv.to_csv`
(src/detect_image.py line 161). -/
def dictGetMethod (name : String) : Except PyErr Unit :=
  if pyDictAttrs.contains name then .ok () else .error PyErr.attributeError

/-! ### main -/

/-- The parsed CLI arguments (src/detect_image.py lines 75-89).
`threshold` defaults to 0.4 and `count` to 5; `count` is an `int` flag, so
it may be negative. -/
structure Args where
  model : String
  input : Option String
  labels : Option String
  threshold : ℚ
  output : Option String
  count : Int
deriving DecidableEq

/-- The observable outcome of a run of `main`: the lines printed (modelled
subset), the images opened, the annotated copies saved, the tabular
files written by `to_csv`, the final `img_csv` object, and the uncaught
exception that terminated the run, when one did. -/
structure RunTrace where
  printed : List String
  opened : List String
  saved : List String
  files : List (String × PyDict)
  imgCsv : PyDict
  err : Option PyErr
deriving DecidableEq

/-- A trace with nothing observed yet. -/
def emptyTrace : RunTrace :=
  { printed := [], opened := [], saved := [], files := [], imgCsv := [],
    err := none }

/-- `load_labels(args.labels) if args.labels else {}`
(src/detect_image.py line 91).  `content` is the text of the file at
`args.labels` as `readlines` would deliver it, or `none` when the file
does not exist. -/
def loadStage (labelsPath : Option String) (content : Option (List String)) :
    Except PyErr (List (Nat × String)) :=
  match labelsPath with
  | none => .ok []
  | some _ =>
    match content with
    | none => .error PyErr.fileNotFoundError
    | some lines => loadLabels lines

/-- Embedding of `main` (src/detect_image.py lines 74-161).  `fs` is the
filesystem's file listing, `content` the optional labels file, `orc` the
external inference runtime with detection decoding.  Note the statement
`print(img_name[253])` on line 105, executed before the loop, and the
final `img_csv.to_csv('test.csv')` on line 161, an attribute lookup on a
plain dict. -/
def mainRun (args : Args) (fs : List String)
    (content : Option (List String)) (orc : ℚ → String → List DetObject) :
    RunTrace :=
  match loadStage args.labels content with
  | .error e => { emptyTrace with err := some e }
  | .ok _labels =>
    let _interp := makeInterpreter args.model
    let img_name := pyGlob fs
    match img_name.get? 253 with
    | none => { emptyTrace with err := some PyErr.indexError }
    | some nm =>
      match runLoop args.threshold args.output args.count orc img_name with
      | .error pe =>
        { printed := nm :: pe.1.printed, opened := pe.1.opened,
          saved := pe.1.saved, files := [], imgCsv := [],
          err := some pe.2 }
      | .ok s =>
        match buildCsv s.acc with
        | .error e =>
          { printed := nm :: s.printed, opened := s.opened,
            saved := s.saved, files := [], imgCsv := [], err := some e }
        | .ok d =>
          match dictGetMethod "to_csv" with
          | .error e =>
            { printed := nm :: s.printed, opened := s.opened,
              saved := s.saved, files := [], imgCsv := d, err := some e }
          | .ok _ =>
            { printed := nm :: s.printed, opened := s.opened,
              saved := s.saved, files := [("test.csv", d)], imgCsv := d,
              err := none }

/-! ### A label-file writer (the repository has none) -/

/-- The decimal digit character for `n % 10`-sized values. -/
def digitChar (n : Nat) : Char :=
  match n with
  | 0 => '0' | 1 => '1' | 2 => '2' | 3 => '3' | 4 => '4'
  | 5 => '5' | 6 => '6' | 7 => '7' | 8 => '8' | _ => '9'

/-- Decimal digit characters of `n`, most significant first, in front of
`acc`; structurally recursive on a fuel bound (any `fuel > n` is
enough, since `n` shrinks by a factor of ten per step). -/
def natDigitsAux (fuel : Nat) (n : Nat) (acc : List Char) : List Char :=
  match fuel with
  | 0 => acc
  | f + 1 =>
    if n < 10 then digitChar n :: acc
    else natDigitsAux f (n / 10) (digitChar (n % 10) :: acc)

/-- The decimal representation of `n`. -/
def natDigits (n : Nat) : String :=
  ⟨natDigitsAux (n + 1) n []⟩

/-- Modelled from the spec: the repository ships no label-file writer, but
§8 states a round-trip property for one ("writing a label file from a
known mapping of sequential integer keys to strings and reloading it
yields the same mapping").  Following the file format of §6 ("each line
is either \"<int> <label>\" or a bare label"), the mapping with
sequential keys `0..n-1` is written one `"<index> <label>"` line per
entry, in key order. -/
def writeLabelLines (labels : List String) : List String :=
  labels.enum.map (fun p => natDigits p.1 ++ " " ++ p.2)

/-! ## Helper lemmas -/

theorem isAsciiDigit_ne {c x : Char} (h : isAsciiDigit c = true)
    (hx : isAsciiDigit x = false) : c ≠ x := by
  intro he
  rw [he, hx] at h
  exact Bool.false_ne_true h

theorem isAsciiDigit_not_pyspace {c : Char} (h : isAsciiDigit c = true) :
    isPySpace c = false := by
  unfold isPySpace
  rw [decide_eq_false (isAsciiDigit_ne h (by decide)),
    decide_eq_false (isAsciiDigit_ne h (by decide)),
    decide_eq_false (isAsciiDigit_ne h (by decide)),
    decide_eq_false (isAsciiDigit_ne h (by decide)),
    decide_eq_false (isAsciiDigit_ne h (by decide)),
    decide_eq_false (isAsciiDigit_ne h (by decide))]
  rfl

theorem isAsciiDigit_ne_space {c : Char} (h : isAsciiDigit c = true) :
    c ≠ ' ' :=
  isAsciiDigit_ne h (by decide)

theorem pyIsdigit_chars {s : String} (h : pyIsdigit s = true) :
    ∀ c ∈ s.data, isAsciiDigit c = true := by
  simp only [pyIsdigit, Bool.and_eq_true, List.all_eq_true] at h
  exact h.2

theorem dropWhile_eq_self_of_all_false {p : Char → Bool} {l : List Char}
    (h : ∀ c ∈ l, p c = false) : l.dropWhile p = l := by
  cases l with
  | nil => rfl
  | cons a t =>
    rw [List.dropWhile_cons, h a (List.mem_cons_self a t)]
    simp

theorem pyStrip_eq_self {s : String}
    (h : ∀ c ∈ s.data, isPySpace c = false) : pyStrip s = s := by
  unfold pyStrip
  rw [dropWhile_eq_self_of_all_false h,
    dropWhile_eq_self_of_all_false
      (fun c hc => h c (List.mem_reverse.mp hc)),
    List.reverse_reverse]

theorem pyStrip_of_digits {s : String} (h : pyIsdigit s = true) :
    pyStrip s = s :=
  pyStrip_eq_self (fun c hc => isAsciiDigit_not_pyspace (pyIsdigit_chars h c hc))

theorem pyInt_of_digits {s : String} (h : pyIsdigit s = true) :
    pyInt s = some (digitsVal s.data) := by
  unfold pyInt
  rw [pyStrip_of_digits h, if_pos h]

theorem split1Aux_append (c : Char) (l r : List Char)
    (h : ∀ x ∈ l, x ≠ c) : split1Aux c (l ++ c :: r) = (l, some r) := by
  induction l with
  | nil => simp [split1Aux]
  | cons a t ih =>
    have ha : a ≠ c := h a (List.mem_cons_self a t)
    simp [split1Aux, ha, ih (fun x hx => h x (List.mem_cons_of_mem a hx))]

theorem pySplit1_append (t r : String) (h : ∀ x ∈ t.data, x ≠ ' ') :
    pySplit1 (t ++ " " ++ r) = [t, r] := by
  unfold pySplit1
  have hd : (t ++ " " ++ r).data = t.data ++ ' ' :: r.data := by
    rw [String.data_append, String.data_append]
    simp
  rw [hd, split1Aux_append ' ' t.data r.data h]

theorem natDictSet_fresh (d : List (Nat × String)) (k : Nat) (v : String)
    (h : ∀ p ∈ d, p.1 ≠ k) : natDictSet d k v = d ++ [(k, v)] := by
  unfold natDictSet
  rw [if_neg]
  simp only [List.any_eq_true, beq_iff_eq, not_exists]
  intro p hpk
  exact h p hpk.1 hpk.2

theorem labelPairsStep_wellformed (d : List (Nat × String)) (t r : String)
    (hdig : pyIsdigit t = true) :
    labelPairsStep d (t ++ " " ++ r) =
      .ok (natDictSet d (digitsVal t.data) (pyStrip r)) := by
  unfold labelPairsStep
  rw [pySplit1_append t r
    (fun x hx => isAsciiDigit_ne_space (pyIsdigit_chars hdig x hx))]
  show (match pyInt t with
    | some k => Except.ok (natDictSet d k (pyStrip r))
    | none => Except.error PyErr.valueError) =
    Except.ok (natDictSet d (digitsVal t.data) (pyStrip r))
  rw [pyInt_of_digits hdig]

theorem loadPairs_go (toks rests : List String) (d : List (Nat × String))
    (hlen : toks.length = rests.length)
    (hdig : ∀ t ∈ toks, pyIsdigit t = true)
    (hfresh : ∀ t ∈ toks, ∀ p ∈ d, p.1 ≠ digitsVal t.data)
    (hnd : (toks.map fun t => digitsVal t.data).Nodup) :
    (List.zipWith (fun t r => t ++ " " ++ r) toks rests).foldlM
        labelPairsStep d =
      .ok (d ++
        List.zipWith (fun t r => (digitsVal t.data, pyStrip r)) toks rests) := by
  induction toks generalizing rests d with
  | nil =>
    simp only [List.zipWith_nil_left, List.foldlM_nil, List.append_nil]
    rfl
  | cons t ts ih =>
    cases rests with
    | nil => exact absurd hlen (by simp)
    | cons r rs =>
      have hdt : pyIsdigit t = true := hdig t (List.mem_cons_self t ts)
      simp only [List.zipWith_cons_cons, List.foldlM_cons]
      rw [labelPairsStep_wellformed d t r hdt]
      rw [natDictSet_fresh d (digitsVal t.data) (pyStrip r)
        (fun p hp => hfresh t (List.mem_cons_self t ts) p hp)]
      have hnd' := hnd
      simp only [List.map_cons, List.nodup_cons] at hnd'
      have step := ih rs (d ++ [(digitsVal t.data, pyStrip r)])
        (by simpa using hlen)
        (fun x hx => hdig x (List.mem_cons_of_mem t hx))
        (by
          intro x hx p hp
          rcases List.mem_append.mp hp with hp1 | hp2
          · exact hfresh x (List.mem_cons_of_mem t hx) p hp1
          · have hpe : p = (digitsVal t.data, pyStrip r) := by
              simpa using hp2
            subst hpe
            intro hcontra
            exact hnd'.1 (List.mem_map.mpr ⟨x, hx, hcontra.symm⟩))
        hnd'.2
      simp only [bind, Except.bind]
      rw [step]
      simp

theorem first_token_not_digit {l0 : String}
    (h : ∀ c ∈ l0.data.head?, isAsciiDigit c = false) :
    pyIsdigit ((pySplit1 l0).headD "") = false := by
  unfold pySplit1
  cases hd : l0.data with
  | nil => rfl
  | cons a t =>
    have ha : isAsciiDigit a = false := by
      apply h
      rw [hd]
      rfl
    by_cases hsp : a = ' '
    · subst hsp
      simp [split1Aux]
      decide
    · simp only [split1Aux, if_neg hsp]
      cases hrest : (split1Aux ' ' t).2 with
      | none => simp [pyIsdigit, ha]
      | some r => simp [pyIsdigit, ha]

/-! ## Claim theorems -/

/-- C3: `load_labels`, applied to a file whose first line starts with a
digit (every line being of the well-formed form "<digits> <label>" with
distinct indices, which the claim presupposes — a malformed later line
raises `ValueError` instead), returns a mapping keyed by the exact
integers at the start of each line; applied to a file without leading
digits, returns a mapping keyed by sequential line order starting at 0
with each line's stripped text as value; applied to an empty file,
returns an empty mapping. -/
theorem c3_load_labels :
    (∀ toks rests : List String, toks ≠ [] → toks.length = rests.length →
      (∀ t ∈ toks, pyIsdigit t = true) →
      (toks.map fun t => digitsVal t.data).Nodup →
      loadLabels (List.zipWith (fun t r => t ++ " " ++ r) toks rests) =
        .ok (List.zipWith (fun t r => (digitsVal t.data, pyStrip r))
          toks rests)) ∧
    (∀ (l0 : String) (ls : List String),
      (∀ c ∈ l0.data.head?, isAsciiDigit c = false) →
      loadLabels (l0 :: ls) =
        .ok ((l0 :: ls).enum.map fun p => (p.1, pyStrip p.2))) ∧
    loadLabels [] = .ok [] := by
  refine ⟨?_, ?_, rfl⟩
  · intro toks rests hne hlen hdig hnd
    cases toks with
    | nil => exact absurd rfl hne
    | cons t ts =>
      cases rests with
      | nil => exact absurd hlen (by simp)
      | cons r rs =>
        have hdt : pyIsdigit t = true := hdig t (List.mem_cons_self t ts)
        have hsp1 : pySplit1 (t ++ " " ++ r) = [t, r] :=
          pySplit1_append t r
            (fun x hx => isAsciiDigit_ne_space (pyIsdigit_chars hdt x hx))
        have hgo := loadPairs_go (t :: ts) (r :: rs) [] hlen hdig
          (by intro x hx p hp; exact absurd hp (List.not_mem_nil p)) hnd
        simp only [List.zipWith_cons_cons] at hgo ⊢
        simp only [loadLabels]
        rw [hsp1]
        simp only [List.headD, hdt, if_pos]
        simpa using hgo
  · intro l0 ls h
    simp only [loadLabels]
    rw [first_token_not_digit h]
    simp

/-- Witness for C3: the three scenarios at concrete label files. -/
theorem c3_load_labels_witness :
    loadLabels ["3 cat\n", "7 dog"] = .ok [(3, "cat"), (7, "dog")] ∧
    loadLabels ["cat\n", "dog"] = .ok [(0, "cat"), (1, "dog")] ∧
    loadLabels [] = .ok [] := by
  refine ⟨?_, ?_, c3_load_labels.2.2⟩
  · have h := c3_load_labels.1 ["3", "7"] ["cat\n", "dog"]
      (by decide) (by decide) (by decide) (by decide)
    have e1 : List.zipWith (fun t r => t ++ " " ++ r) ["3", "7"]
        ["cat\n", "dog"] = ["3 cat\n", "7 dog"] := by decide
    have e2 : List.zipWith (fun t r => (digitsVal t.data, pyStrip r))
        ["3", "7"] ["cat\n", "dog"] = [(3, "cat"), (7, "dog")] := by decide
    rw [e1, e2] at h
    exact h
  · have h := c3_load_labels.2.1 "cat\n" ["dog"]
      (by intro c hc; simp [Option.mem_def] at hc; subst hc; decide)
    have e : (["cat\n", "dog"].enum.map fun p => (p.1, pyStrip p.2)) =
        [(0, "cat"), (1, "dog")] := by decide
    rw [e] at h
    exact h

theorem isAsciiDigit_digitChar (n : Nat) :
    isAsciiDigit (digitChar n) = true := by
  rcases n with _|_|_|_|_|_|_|_|_|m <;> rfl

theorem digitChar_toNat {n : Nat} (h : n < 10) :
    (digitChar n).toNat = 48 + n := by
  interval_cases n <;> rfl

theorem natDigitsAux_acc (fuel : Nat) : ∀ n acc, n < fuel →
    natDigitsAux fuel n acc = natDigitsAux fuel n [] ++ acc := by
  induction fuel with
  | zero => intro n acc h; omega
  | succ f ih =>
    intro n acc h
    simp only [natDigitsAux]
    by_cases h10 : n < 10
    · simp [h10]
    · rw [if_neg h10, if_neg h10,
        ih (n / 10) (digitChar (n % 10) :: acc) (by omega),
        ih (n / 10) [digitChar (n % 10)] (by omega)]
      simp

theorem digitsVal_append_one (l : List Char) (c : Char) :
    digitsVal (l ++ [c]) = 10 * digitsVal l + (c.toNat - 48) := by
  unfold digitsVal
  rw [List.foldl_append]
  rfl

theorem digitsVal_natDigitsAux (fuel : Nat) : ∀ n, n < fuel →
    digitsVal (natDigitsAux fuel n []) = n := by
  induction fuel with
  | zero => intro n h; omega
  | succ f ih =>
    intro n h
    simp only [natDigitsAux]
    by_cases h10 : n < 10
    · rw [if_pos h10]
      show 10 * 0 + ((digitChar n).toNat - 48) = n
      rw [digitChar_toNat h10]
      omega
    · rw [if_neg h10,
        natDigitsAux_acc f (n / 10) [digitChar (n % 10)] (by omega),
        digitsVal_append_one, ih (n / 10) (by omega),
        digitChar_toNat (Nat.mod_lt _ (by omega))]
      omega

theorem digitsVal_natDigits (n : Nat) :
    digitsVal (natDigits n).data = n :=
  digitsVal_natDigitsAux (n + 1) n (by omega)

theorem natDigitsAux_all_digits (fuel : Nat) : ∀ n, n < fuel →
    ∀ c ∈ natDigitsAux fuel n [], isAsciiDigit c = true := by
  induction fuel with
  | zero => intro n h; omega
  | succ f ih =>
    intro n h c hc
    simp only [natDigitsAux] at hc
    by_cases h10 : n < 10
    · rw [if_pos h10] at hc
      simp only [List.mem_singleton] at hc
      subst hc
      exact isAsciiDigit_digitChar n
    · rw [if_neg h10,
        natDigitsAux_acc f (n / 10) [digitChar (n % 10)] (by omega)] at hc
      rcases List.mem_append.mp hc with h1 | h2
      · exact ih (n / 10) (by omega) c h1
      · simp only [List.mem_singleton] at h2
        subst h2
        exact isAsciiDigit_digitChar (n % 10)

theorem natDigitsAux_ne_nil (fuel n : Nat) (h : n < fuel) :
    natDigitsAux fuel n [] ≠ [] := by
  cases fuel with
  | zero => omega
  | succ f =>
    simp only [natDigitsAux]
    by_cases h10 : n < 10
    · simp [h10]
    · rw [if_neg h10,
        natDigitsAux_acc f (n / 10) [digitChar (n % 10)] (by omega)]
      simp

theorem pyIsdigit_natDigits (n : Nat) : pyIsdigit (natDigits n) = true := by
  unfold pyIsdigit natDigits
  rw [Bool.and_eq_true]
  refine ⟨?_, ?_⟩
  · simp only [Bool.not_eq_true']
    rw [List.isEmpty_eq_false_iff_exists_mem]
    rcases List.exists_mem_of_ne_nil _ (natDigitsAux_ne_nil (n + 1) n (by omega))
      with ⟨c, hc⟩
    exact ⟨c, hc⟩
  · rw [List.all_eq_true]
    exact natDigitsAux_all_digits (n + 1) n (by omega)

theorem natDigits_no_space (n : Nat) :
    ∀ x ∈ (natDigits n).data, x ≠ ' ' :=
  fun x hx => isAsciiDigit_ne_space
    (natDigitsAux_all_digits (n + 1) n (by omega) x hx)

theorem c6_go (labels : List String) : ∀ (k : Nat) (d : List (Nat × String)),
    (∀ l ∈ labels, pyStrip l = l) →
    (∀ p ∈ d, p.1 < k) →
    ((List.enumFrom k labels).map
        (fun p => natDigits p.1 ++ " " ++ p.2)).foldlM labelPairsStep d =
      .ok (d ++ List.enumFrom k labels) := by
  induction labels with
  | nil =>
    intro k d _ _
    simp only [List.enumFrom, List.map_nil, List.foldlM_nil, List.append_nil]
    rfl
  | cons l ls ih =>
    intro k d h hkeys
    simp only [List.enumFrom, List.map_cons, List.foldlM_cons]
    rw [labelPairsStep_wellformed d (natDigits k) l (pyIsdigit_natDigits k)]
    rw [digitsVal_natDigits k, h l (List.mem_cons_self l ls)]
    rw [natDictSet_fresh d k l (fun p hp => Nat.ne_of_lt (hkeys p hp))]
    simp only [bind, Except.bind]
    rw [ih (k + 1) (d ++ [(k, l)])
      (fun x hx => h x (List.mem_cons_of_mem l hx))
      (by
        intro p hp
        rcases List.mem_append.mp hp with h1 | h2
        · exact Nat.lt_succ_of_lt (hkeys p h1)
        · simp only [List.mem_singleton] at h2
          subst h2
          exact Nat.lt_succ_self k)]
    simp

/-- C6 counterexample: the round-trip fails for a mapping whose label
carries leading whitespace — `load_labels` strips each label, so
`{0: " a"}` reloads as `{0: "a"}`, not as itself. -/
theorem c6_roundtrip_cex :
    loadLabels (writeLabelLines [" a"]) = .ok [(0, "a")] ∧
    loadLabels (writeLabelLines [" a"]) ≠ .ok (List.enum [" a"]) := by
  constructor
  · decide
  · decide

/-- C6 (amended): writing a label file from a mapping of sequential integer
keys starting at 0 to label strings that are unchanged by whitespace
stripping, then reloading it with `load_labels`, yields the same
mapping. -/
theorem c6_roundtrip (labels : List String)
    (h : ∀ l ∈ labels, pyStrip l = l) :
    loadLabels (writeLabelLines labels) = .ok labels.enum := by
  cases labels with
  | nil => rfl
  | cons l0 ls =>
    have hgo := c6_go (l0 :: ls) 0 [] h (fun p hp => absurd hp (List.not_mem_nil p))
    unfold writeLabelLines
    have henum2 : List.enumFrom 0 (l0 :: ls) = (0, l0) :: List.enumFrom 1 ls := by
      simp [List.enumFrom]
    have henum : (l0 :: ls).enum = (0, l0) :: List.enumFrom 1 ls := henum2
    rw [henum]
    simp only [List.map_cons]
    simp only [loadLabels]
    rw [pySplit1_append (natDigits 0) l0 (natDigits_no_space 0)]
    simp only [List.headD, pyIsdigit_natDigits 0, if_pos]
    rw [henum2] at hgo
    simp only [List.map_cons, List.nil_append] at hgo
    exact hgo

/-- Witness for the amended C6 at a concrete mapping. -/
theorem c6_roundtrip_witness :
    loadLabels (writeLabelLines ["cat", "dog bird"]) =
      .ok (List.enum ["cat", "dog bird"]) :=
  c6_roundtrip ["cat", "dog bird"] (by decide)

theorem fold_processObj (img : String) (objs : List DetObject) :
    ∀ acc : Accum, objs.foldl (fun a o => processObj a img o) acc =
      { img_n := acc.img_n ++ objs.map (fun _ => img),
        img_id := acc.img_id ++ objs.map (fun o => o.id),
        img_x := acc.img_x ++ objs.map (fun o => o.bbox.xmin),
        img_y := acc.img_y ++ objs.map (fun o => o.bbox.ymin),
        img_w := acc.img_w ++ objs.map (fun o => o.bbox.xmax - o.bbox.xmin),
        img_h := acc.img_h ++ objs.map (fun o => o.bbox.ymax - o.bbox.ymin),
        img_score := acc.img_score ++ objs.map (fun o => o.score) } := by
  induction objs with
  | nil => intro acc; simp
  | cons o os ih =>
    intro acc
    simp only [List.foldl_cons, List.map_cons]
    rw [ih (processObj acc img o)]
    simp [processObj, bboxGet]

/-- C5: for every detection processed by the main loop, the width appended
to the accumulator is xmax − xmin and the height appended is
ymax − ymin of that detection's bounding box. -/
theorem c5_bbox_width_height (acc : Accum) (img : String)
    (objs : List DetObject) :
    (processImage acc img objs).1.img_w =
      acc.img_w ++ objs.map (fun o => o.bbox.xmax - o.bbox.xmin) ∧
    (processImage acc img objs).1.img_h =
      acc.img_h ++ objs.map (fun o => o.bbox.ymax - o.bbox.ymin) := by
  unfold processImage
  rw [fold_processObj img objs acc]
  exact ⟨rfl, rfl⟩

/-- C4: when the decoded detection list for an image is empty (inference
actually ran, `count ≥ 1`), the iteration prints `No objects detected`
and leaves every accumulator list unchanged, so the final table gets no
rows from that image. -/
theorem c4_no_objects (threshold : ℚ) (output : Option String)
    (count : Int) (orc : ℚ → String → List DetObject) (s : LoopState)
    (img : String) (hc : 1 ≤ count) (hz : orc threshold img = []) :
    ∃ s', loopBody threshold output count orc s img = .ok s' ∧
      s'.acc = s.acc ∧ "No objects detected" ∈ s'.printed := by
  have hres : resolveObjs threshold count orc (openStep s img).prevObjs img
      = .ok [] := by
    unfold resolveObjs
    rw [if_pos hc, hz]
  refine ⟨loopStepOk output (openStep s img) img [], ?_, ?_, ?_⟩
  · unfold loopBody
    rw [hres]
  · cases output <;> rfl
  · cases output <;> simp [loopStepOk, openStep, processImage]

/-- Witness for C4: a concrete iteration with no detections. -/
theorem c4_no_objects_witness :
    ∃ s', loopBody (2/5) none 5 (fun _ _ => []) initLoopState "test_images/cat.jpg" = .ok s' ∧
      s'.acc = initLoopState.acc ∧ "No objects detected" ∈ s'.printed :=
  c4_no_objects (2/5) none 5 (fun _ _ => []) initLoopState
    "test_images/cat.jpg" (by decide) rfl

theorem splitAllAux_ne_nil (c : Char) (l : List Char) :
    splitAllAux c l ≠ [] := by
  cases l with
  | nil => simp [splitAllAux]
  | cons x xs =>
    simp only [splitAllAux]
    by_cases hx : x = c
    · simp [hx]
    · rw [if_neg hx]
      cases splitAllAux c xs <;> simp

theorem splitAllAux_append (c : Char) (l r : List Char)
    (h : ∀ x ∈ l, x ≠ c) :
    (splitAllAux c (l ++ c :: r)).headD [] = l := by
  induction l with
  | nil => simp [splitAllAux]
  | cons a t ih =>
    have ha : a ≠ c := h a (List.mem_cons_self a t)
    have ih2 := ih (fun x hx => h x (List.mem_cons_of_mem a hx))
    simp only [List.cons_append, splitAllAux, if_neg ha]
    cases hs : splitAllAux c (t ++ c :: r) with
    | nil => exact absurd hs (splitAllAux_ne_nil c (t ++ c :: r))
    | cons y ys =>
      rw [hs] at ih2
      simp only [List.headD] at ih2 ⊢
      rw [ih2]

/-- C8: for a model argument containing an `@` separator,
`make_interpreter` hands only the portion before the first `@` to the
runtime as the model path; the device token after the `@` has no effect
on the interpreter produced (the right-hand side does not depend on
it). -/
theorem c8_make_interpreter (s t : String)
    (h : ∀ x ∈ s.data, x ≠ '@') :
    makeInterpreter (s ++ "@" ++ t) = { modelPath := s } := by
  unfold makeInterpreter
  have hd : (s ++ "@" ++ t).data = s.data ++ '@' :: t.data := by
    rw [String.data_append, String.data_append]
    simp
  rw [hd, splitAllAux_append '@' s.data t.data h]

/-- Witness for C8 at a concrete model path and device token. -/
theorem c8_make_interpreter_witness :
    makeInterpreter ("model.tflite" ++ "@" ++ "usb:0") =
      { modelPath := "model.tflite" } :=
  c8_make_interpreter "model.tflite" "usb:0" (by decide)

theorem dictUpdate_imgDict_empty (st : Accum) (nm : String) :
    dictUpdate [] (imgDictAt st nm) = imgDictAt st nm := rfl

theorem dictUpdate_imgDict_over (st st2 : Accum) (nm nm2 : String) :
    dictUpdate (imgDictAt st nm) (imgDictAt st2 nm2) = imgDictAt st2 nm2 := rfl

theorem csvLoop_append (st : Accum) (l1 l2 : List Nat) : ∀ d : PyDict,
    csvLoop st d (l1 ++ l2) =
      match csvLoop st d l1 with
      | .ok d' => csvLoop st d' l2
      | .error e => .error e := by
  induction l1 with
  | nil => intro d; rfl
  | cons i t ih =>
    intro d
    simp only [List.cons_append, csvLoop]
    cases st.img_n.get? i with
    | none => rfl
    | some nm => exact ih (dictUpdate d (imgDictAt st nm))

/-- C2: the final table object is rebuilt once per accumulated index
(`for i in range(len(img_x))`); the state of `img_csv` after the
iteration for index `k` is exactly the seven-key dict that pairs the
single filename `img_n[k]` with the entire accumulated `label_id`, `x`,
`y`, `w`, `h` and `confidence` lists — every iteration fully overwrites
the previous dict contents instead of appending a row. -/
theorem c2_csv_rebuild (st : Accum) (k : Nat) (_hkx : k < st.img_x.length)
    (hk : k < st.img_n.length) :
    csvLoop st [] (List.range (k + 1)) =
      .ok (imgDictAt st (st.img_n.get ⟨k, hk⟩)) := by
  clear _hkx
  induction k with
  | zero =>
    have h1 : List.range 1 = [0] := rfl
    rw [h1]
    simp only [csvLoop]
    rw [List.get?_eq_get hk]
    rfl
  | succ k ih =>
    rw [List.range_succ, csvLoop_append st (List.range (k + 1)) [k + 1] []]
    rw [ih (Nat.lt_of_succ_lt hk)]
    simp only [csvLoop]
    rw [List.get?_eq_get hk]
    rfl

/-- A concrete accumulator with two detections, for the C2 witness. -/
def c2St : Accum :=
  { img_n := ["test_images/a.jpg", "test_images/b.jpg"], img_id := [1, 2],
    img_x := [10, 30], img_y := [20, 40], img_w := [5, 6], img_h := [7, 8],
    img_score := [9/10, 4/5] }

/-- Witness for C2: after the second rebuild iteration, `img_csv` is the
dict pairing only the second filename with both detections' columns. -/
theorem c2_csv_rebuild_witness :
    csvLoop c2St [] (List.range 2) =
      .ok (imgDictAt c2St "test_images/b.jpg") :=
  c2_csv_rebuild c2St 1 (by decide) (by decide)

/-- C7: two runs of `main` that differ only in the value of the `--input`
flag are observably identical — the set of images processed comes from
the hardcoded glob `test_images/*.jpg` and is never influenced by
`--input`. -/
theorem c7_input_ignored (args : Args) (v : Option String)
    (fs : List String) (content : Option (List String))
    (orc : ℚ → String → List DetObject) :
    mainRun { args with input := v } fs content orc =
      mainRun args fs content orc := by
  cases args
  rfl

/-- C9: in every run where the hardcoded glob matches fewer than 254 files
(and which reaches line 105, i.e. label loading succeeded), `main`
raises `IndexError` at `print(img_name[253])` before the loop, so no
image is ever opened or processed. -/
theorem c9_premature_index_error (args : Args) (fs : List String)
    (content : Option (List String)) (orc : ℚ → String → List DetObject)
    (L : List (Nat × String))
    (hL : loadStage args.labels content = .ok L)
    (hlen : (pyGlob fs).length < 254) :
    (mainRun args fs content orc).err = some PyErr.indexError ∧
    (mainRun args fs content orc).opened = [] := by
  have h253 : (pyGlob fs).get? 253 = none :=
    List.get?_eq_none.mpr (by omega)
  simp only [mainRun, hL, h253]
  constructor <;> trivial

/-- Arguments used by the concrete witnesses: defaults with a model path. -/
def defaultArgs : Args :=
  { model := "model.tflite", input := none, labels := none,
    threshold := 2/5, output := none, count := 5 }

/-- Witness for C9: one matching image, label loading trivially fine. -/
theorem c9_premature_index_error_witness :
    (mainRun defaultArgs ["test_images/cat.jpg"] none
        (fun _ _ => [])).err = some PyErr.indexError ∧
    (mainRun defaultArgs ["test_images/cat.jpg"] none
        (fun _ _ => [])).opened = [] :=
  c9_premature_index_error defaultArgs ["test_images/cat.jpg"] none
    (fun _ _ => []) [] rfl (by decide)

theorem loopStepOk_acc (output : Option String) (s1 : LoopState)
    (img : String) (objs : List DetObject) :
    (loopStepOk output s1 img objs).acc =
      (processImage s1.acc img objs).1 := by
  cases output <;> rfl

theorem loopBody_lengths (threshold : ℚ) (output : Option String)
    (count : Int) (orc : ℚ → String → List DetObject) (s : LoopState)
    (img : String) (s' : LoopState)
    (h : loopBody threshold output count orc s img = .ok s')
    (hs : s.acc.img_n.length = s.acc.img_x.length) :
    s'.acc.img_n.length = s'.acc.img_x.length := by
  unfold loopBody at h
  cases hr : resolveObjs threshold count orc (openStep s img).prevObjs img with
  | error e =>
    rw [hr] at h
    exact absurd h (by simp)
  | ok objs =>
    rw [hr] at h
    have hs' : s' = loopStepOk output (openStep s img) img objs :=
      (Except.ok.inj h).symm
    subst hs'
    rw [loopStepOk_acc]
    unfold processImage
    rw [fold_processObj img objs (openStep s img).acc]
    simp [openStep, hs]

theorem foldLoop_lengths (threshold : ℚ) (output : Option String)
    (count : Int) (orc : ℚ → String → List DetObject)
    (imgs : List String) : ∀ s s' : LoopState,
    s.acc.img_n.length = s.acc.img_x.length →
    imgs.foldlM (loopBody threshold output count orc) s = .ok s' →
    s'.acc.img_n.length = s'.acc.img_x.length := by
  induction imgs with
  | nil =>
    intro s s' hs h
    have : s = s' := Except.ok.inj h
    subst this
    exact hs
  | cons img rest ih =>
    intro s s' hs h
    rw [List.foldlM_cons] at h
    cases hb : loopBody threshold output count orc s img with
    | error e =>
      rw [hb] at h
      exact absurd h (by simp [bind, Except.bind])
    | ok s1 =>
      rw [hb] at h
      simp only [bind, Except.bind] at h
      exact ih s1 s'
        (loopBody_lengths threshold output count orc s img s1 hb hs) h

theorem runLoop_lengths (threshold : ℚ) (output : Option String)
    (count : Int) (orc : ℚ → String → List DetObject)
    (imgs : List String) (s' : LoopState)
    (h : runLoop threshold output count orc imgs = .ok s') :
    s'.acc.img_n.length = s'.acc.img_x.length :=
  foldLoop_lengths threshold output count orc imgs initLoopState s' rfl h

theorem csvLoop_total (st : Accum) : ∀ (l : List Nat) (d : PyDict),
    (∀ i ∈ l, i < st.img_n.length) →
    ∃ d', csvLoop st d l = .ok d' := by
  intro l
  induction l with
  | nil => intro d _; exact ⟨d, rfl⟩
  | cons i t ih =>
    intro d h
    have hi : i < st.img_n.length := h i (List.mem_cons_self i t)
    simp only [csvLoop]
    rw [List.get?_eq_get hi]
    exact ih (dictUpdate d (imgDictAt st (st.img_n.get ⟨i, hi⟩)))
      (fun j hj => h j (List.mem_cons_of_mem i hj))

theorem buildCsv_total (st : Accum)
    (h : st.img_n.length = st.img_x.length) :
    ∃ d, buildCsv st = .ok d := by
  unfold buildCsv
  exact csvLoop_total st (List.range st.img_x.length) []
    (fun i hi => by rw [h]; exact List.mem_range.mp hi)

/-- C10: every run of `main` that completes the per-image loop raises
`AttributeError` at the final `img_csv.to_csv('test.csv')` statement,
because `img_csv` is a plain built-in dict, which has no `to_csv`
attribute; and no run of `main` — completing the loop or not — ever
writes a tabular output file. -/
theorem c10_to_csv_attribute_error :
    (∀ (args : Args) (fs : List String) (content : Option (List String))
      (orc : ℚ → String → List DetObject) (L : List (Nat × String))
      (nm : String) (s : LoopState),
      loadStage args.labels content = .ok L →
      (pyGlob fs).get? 253 = some nm →
      runLoop args.threshold args.output args.count orc (pyGlob fs) =
        .ok s →
      (mainRun args fs content orc).err = some PyErr.attributeError) ∧
    (∀ (args : Args) (fs : List String) (content : Option (List String))
      (orc : ℚ → String → List DetObject),
      (mainRun args fs content orc).files = []) := by
  constructor
  · intro args fs content orc L nm s hL h253 hloop
    rcases buildCsv_total s.acc
      (runLoop_lengths args.threshold args.output args.count orc
        (pyGlob fs) s hloop) with ⟨d, hd⟩
    simp only [mainRun, hL, h253, hloop, hd]
    rfl
  · intro args fs content orc
    rcases hL : loadStage args.labels content with e | L
    · simp only [mainRun, hL]
      rfl
    · rcases h253 : (pyGlob fs).get? 253 with _ | nm
      · simp only [mainRun, hL, h253]
        rfl
      · rcases hrun : runLoop args.threshold args.output args.count orc
            (pyGlob fs) with pe | s
        · simp only [mainRun, hL, h253, hrun]
        · rcases hcsv : buildCsv s.acc with e | d
          · simp only [mainRun, hL, h253, hrun, hcsv]
          · simp only [mainRun, hL, h253, hrun, hcsv]
            rfl

/-- Filesystem large enough to pass `print(img_name[253])`, for the C10
witness. -/
def manyFs : List String :=
  List.replicate 254 "test_images/a.jpg"

set_option maxRecDepth 100000 in
/-- Witness for C10: a run with 254 matching images completes the loop and
ends in `AttributeError`, writing no file. -/
theorem c10_to_csv_attribute_error_witness :
    (mainRun defaultArgs manyFs none (fun _ _ => [])).err =
      some PyErr.attributeError ∧
    (mainRun defaultArgs manyFs none (fun _ _ => [])).files = [] :=
  ⟨c10_to_csv_attribute_error.1 defaultArgs manyFs none (fun _ _ => [])
      [] "test_images/a.jpg" _ rfl (by decide) rfl,
    c10_to_csv_attribute_error.2 defaultArgs manyFs none (fun _ _ => [])⟩

/-- The detection stub of the C1 scenario: one detection, score 0.9. -/
def oneDetOrc : ℚ → String → List DetObject := fun _ _ =>
  [{ id := 1, score := 9/10,
     bbox := { xmin := 10, ymin := 20, xmax := 110, ymax := 220 } }]

/-- C1 (observed code behavior at the claim's scenario): with exactly one
image matching the hardcoded glob and a stub returning one detection of
score 0.9 against the default threshold 0.4, the run does not serialize
a one-row table — it raises `IndexError` at `print(img_name[253])`
before opening any image, and no tabular file is ever written. -/
theorem c1_single_image_crashes :
    (mainRun defaultArgs ["test_images/cat.jpg"] none oneDetOrc).err =
      some PyErr.indexError ∧
    (mainRun defaultArgs ["test_images/cat.jpg"] none oneDetOrc).files =
      [] ∧
    (mainRun defaultArgs ["test_images/cat.jpg"] none oneDetOrc).opened =
      [] := by
  refine ⟨?_, ?_, ?_⟩ <;> rfl

end DetectImage
